import Mathlib

/-!
Shallow embedding of noctty (src/noctty.c), a single-file utility that
relinquishes the controlling terminal and then either runs a command or
blocks forever.  Each C function is translated to a Lean function that
returns the list of observable events it emits (its trace) together with
either a normal completion or a program-terminating outcome.  Outcomes of
system calls (sigaction, open, ioctl, system, sem operations) are supplied
by an environment record, since the kernel decides them at run time.
-/

namespace Noctty

/-- glibc wait-status decoding: low seven bits of the status word. -/
def wstatusLow (s : Nat) : Nat := s % 128

/-- WIFEXITED(s): the low seven bits are zero. -/
def wifexited (s : Nat) : Bool := s % 128 == 0

/-- WEXITSTATUS(s): bits 8..15 of the status word. -/
def wexitstatus (s : Nat) : Nat := (s / 256) % 256

/-- WIFSIGNALED(s): the low seven bits are neither 0 (exited) nor 127 (stopped). -/
def wifsignaled (s : Nat) : Bool := (s % 128 != 0) && (s % 128 != 127)

/-- WTERMSIG(s): the low seven bits. -/
def wtermsig (s : Nat) : Nat := s % 128

/-- Wait status of a child that exited normally with code n (n is taken mod 256,
as the kernel keeps only one byte of the exit code). -/
def encodeExited (n : Nat) : Nat := 256 * (n % 256)

/-- Wait status of a child terminated by signal sig (a real signal number,
between 1 and 126, so the status is neither the exited shape 0 nor the
stopped marker 127). -/
def encodeSignaled (sig : Nat) : Nat := sig % 128

/-- Wait status of a child stopped by signal sig: low byte 127, signal above. -/
def encodeStopped (sig : Nat) : Nat := 127 + 256 * sig

/-- A SIGHUP disposition installed by sigaction: SIG_IGN or SIG_DFL. -/
inductive Disp : Type
| ign : Disp
| dfl : Disp
deriving DecidableEq, Repr

/-- Observable events of a run, in chronological order. -/
inductive Ev : Type
| sigdisp (d : Disp)
| openTty
| ioctlNotty
| closeTty
| outStr (s : String)
| errStr (s : String)
| ttyChild (line : String)
| getoptDiag (self : String) (c : Char)
| helpOut (toStderr : Bool) (self : String)
| semInit (pshared : Bool) (value : Nat)
| spawn (cmd : String)
deriving DecidableEq, Repr

/-- How the program ends (or fails to end). -/
inductive Res : Type
| exited (code : Nat)
| bailed (msg : String)
| assertAborted
| blocked
deriving DecidableEq, Repr

/-- Exit status the shell would observe: bail is perror plus exit(EXIT_FAILURE),
assertion aborts die by signal (no normal status), blocked never exits. -/
def Res.exitStatus : Res → Option Nat
| Res.exited n => some n
| Res.bailed _ => some 1
| Res.assertAborted => none
| Res.blocked => none

/-- Possible outcomes of sem_wait on the private semaphore. -/
inductive SemWaitRes : Type
| blocksForever
| errReturn
| zeroReturn
deriving DecidableEq, Repr

/-- Outcomes of the system calls the program makes, decided by the kernel. -/
structure Env : Type where
  sigIgnOk : Bool
  openOk : Bool
  ioctlOk : Bool
  sigDflOk : Bool
  ttyStatus : Nat
  ttyLine : String
  childStatus : Nat
  semInitOk : Bool
  semWaitRes : SemWaitRes

/-- The semaphore in block_forever is created with value 0 and no party ever
posts it, so a successful (zero-returning) sem_wait is impossible under the
semantics of semaphores: sem_wait returns 0 only after decrementing a
positive count.  Environments respecting that semantics satisfy this. -/
def Env.semConsistent (e : Env) : Prop := e.semWaitRes ≠ SemWaitRes.zeroReturn

/-- The separator line print_tty writes in verbose mode. -/
def sepLine : String := "------------------------------------------------------------\n\n"

/-- The header line print_tty writes in verbose mode. -/
def hdrLine : String := "Terminal is:\n"

/-- print_tty: optionally print a header, run system("tty") (whose child
writes the terminal pathname to the shared stdout), assert the child exited
with status 0, optionally print a separator.  The two asserts collapse to
one test with the same observable outcome (abort). -/
def print_tty (verbose : Bool) (e : Env) : List Ev × Except Res Unit :=
  let hdr : List Ev := if verbose then [Ev.outStr hdrLine] else []
  let evs := hdr ++ [Ev.ttyChild e.ttyLine]
  if wifexited e.ttyStatus && (wexitstatus e.ttyStatus == 0) then
    (evs ++ (if verbose then [Ev.outStr sepLine] else []), Except.ok ())
  else
    (evs, Except.error Res.assertAborted)

/-- relinquish_controlling_tty: sigaction(SIGHUP, SIG_IGN), open /dev/tty
with O_RDWR|O_NOCTTY, ioctl TIOCNOTTY, sigaction(SIGHUP, SIG_DFL); each
failing call bails via perror+exit.  The trace records each successful step
in program order. -/
def relinquish_controlling_tty (e : Env) : List Ev × Except Res Unit :=
  if !e.sigIgnOk then ([], Except.error (Res.bailed "sigaction error"))
  else if !e.openOk then
    ([Ev.sigdisp Disp.ign], Except.error (Res.bailed "error opening /dev/tty"))
  else if !e.ioctlOk then
    ([Ev.sigdisp Disp.ign, Ev.openTty], Except.error (Res.bailed "ioctl error"))
  else if !e.sigDflOk then
    ([Ev.sigdisp Disp.ign, Ev.openTty, Ev.ioctlNotty],
     Except.error (Res.bailed "sigaction error"))
  else
    ([Ev.sigdisp Disp.ign, Ev.openTty, Ev.ioctlNotty, Ev.sigdisp Disp.dfl],
     Except.ok ())

/-- run_given_command status mapping: WIFEXITED gives WEXITSTATUS, else
WIFSIGNALED gives 128 + WTERMSIG, else assert(false) aborts (none). -/
def run_given_command (status : Nat) : Option Nat :=
  if wifexited status then some (wexitstatus status)
  else if wifsignaled status then some (128 + wtermsig status)
  else none

/-- block_forever: sem_init(&sem, false, 0) then sem_wait(&sem); a failing
call bails, a blocking wait never returns, a zero return falls through. -/
def block_forever (e : Env) : List Ev × Except Res Unit :=
  if !e.semInitOk then ([], Except.error (Res.bailed "sem_init error"))
  else
    match e.semWaitRes with
    | SemWaitRes.blocksForever => ([Ev.semInit false 0], Except.error Res.blocked)
    | SemWaitRes.errReturn =>
        ([Ev.semInit false 0], Except.error (Res.bailed "sem_wait error"))
    | SemWaitRes.zeroReturn => ([Ev.semInit false 0], Except.ok ())

/-- Parsed invocation options, as in the C options struct (NULL command
becomes none). -/
structure options : Type where
  command : Option String
  verbose : Bool
deriving DecidableEq, Repr

/-- Result of processing one clustered short-option argument. -/
inductive ScanOneRes : Type
| help
| badFlag (c : Char)
| cont (verbose : Bool)
deriving DecidableEq, Repr

/-- getopt processing of the characters of one option argument against the
option string "hv": h prints help and exits 0, v sets verbose, anything
else is the error case. -/
def scanOne : Bool → List Char → ScanOneRes
| v, [] => ScanOneRes.cont v
| _, c :: cs =>
    if c = 'h' then ScanOneRes.help
    else if c = 'v' then scanOne true cs
    else ScanOneRes.badFlag c

/-- Result of the whole getopt loop. -/
inductive ScanRes : Type
| help
| badFlag (c : Char)
| done (verbose : Bool) (pos : List String)
deriving DecidableEq, Repr

/-- The getopt loop over the arguments after argv[0]: option arguments (a
dash followed by at least one character, other than the bare "--") are
processed char by char; a bare "-" or any argument not starting with a dash
stops the scan and it and the rest are positional; "--" is consumed and
stops the scan. -/
def scanArgs : Bool → List String → ScanRes
| v, [] => ScanRes.done v []
| v, a :: rest =>
    match a.data with
    | '-' :: [] => ScanRes.done v (a :: rest)
    | '-' :: '-' :: [] => ScanRes.done v rest
    | '-' :: c :: cs =>
        match scanOne v (c :: cs) with
        | ScanOneRes.help => ScanRes.help
        | ScanOneRes.badFlag ch => ScanRes.badFlag ch
        | ScanOneRes.cont v2 => scanArgs v2 rest
    | _ => ScanRes.done v (a :: rest)

/-- process_args: run the getopt loop; -h prints help to stdout and exits 0;
an unrecognized flag makes getopt print its own diagnostic to stderr and the
program exits EXIT_FAILURE; two or more positional arguments print the
invalid-arguments message and the help text to stderr and exit EXIT_FAILURE;
otherwise the options record is returned (command = first positional, if
any). -/
def process_args (argv0 : String) (args : List String) :
    List Ev × Except Res options :=
  match scanArgs false args with
  | ScanRes.help => ([Ev.helpOut false argv0], Except.error (Res.exited 0))
  | ScanRes.badFlag c => ([Ev.getoptDiag argv0 c], Except.error (Res.exited 1))
  | ScanRes.done v pos =>
      match pos with
      | [] => ([], Except.ok { command := none, verbose := v })
      | [c] => ([], Except.ok { command := some c, verbose := v })
      | _ :: _ :: _ =>
          ([Ev.errStr "error: invalid arguments\n", Ev.errStr "\n",
            Ev.helpOut true argv0],
           Except.error (Res.exited 1))

/-- The part of main after argument processing: print_tty,
relinquish_controlling_tty, then either run the given command (exiting with
the mapped status, or aborting on an unexpected wait-status shape) or block
forever; if block_forever somehow returns, main falls off its end, which in
C returns 0 from main. -/
def mainAfterParse (opts : options) (e : Env) : List Ev × Res :=
  match print_tty opts.verbose e with
  | (tr2, Except.error r) => (tr2, r)
  | (tr2, Except.ok _) =>
    match relinquish_controlling_tty e with
    | (tr3, Except.error r) => (tr2 ++ tr3, r)
    | (tr3, Except.ok _) =>
      match opts.command with
      | some cmd =>
          match run_given_command e.childStatus with
          | some n => (tr2 ++ tr3 ++ [Ev.spawn cmd], Res.exited n)
          | none => (tr2 ++ tr3 ++ [Ev.spawn cmd], Res.assertAborted)
      | none =>
          match block_forever e with
          | (tr4, Except.error r) => (tr2 ++ tr3 ++ tr4, r)
          | (tr4, Except.ok _) => (tr2 ++ tr3 ++ tr4, Res.exited 0)

/-- main: process_args, then the three remaining stages. -/
def noctty_main (argv0 : String) (args : List String) (e : Env) :
    List Ev × Res :=
  match process_args argv0 args with
  | (tr, Except.error r) => (tr, r)
  | (tr, Except.ok opts) =>
      (tr ++ (mainAfterParse opts e).1, (mainAfterParse opts e).2)

/-- The default value of the __COMMIT__ build macro when the build does not
define it. -/
def commitStr : String := "(unspecified)"

/-- The __DATE__ compile-time constant; its value is fixed at build time and
immaterial to every property below. -/
def dateStr : String := "__DATE__"

/-- The three lines print_help writes to its stream. -/
def helpLines (self : String) : List String :=
  ["Usage: " ++ self ++ " [-v] [COMMAND]\n",
   "Relinquish the controlling terminal. Optionally, run a command.\n",
   "(Built from " ++ commitStr ++ " on " ++ dateStr ++ ".)\n"]

/-- The bytes the program and its tty child put on stdout, line by line. -/
def stdoutOf : List Ev → List String
| [] => []
| Ev.outStr s :: tl => s :: stdoutOf tl
| Ev.ttyChild line :: tl => line :: stdoutOf tl
| Ev.helpOut false self :: tl => helpLines self ++ stdoutOf tl
| _ :: tl => stdoutOf tl

/-- Whether the help text was printed to stderr somewhere in the trace. -/
def stderrHasHelp (tr : List Ev) : Bool :=
  tr.any (fun ev => match ev with | Ev.helpOut true _ => true | _ => false)

/-- Whether the trace contains any detachment side effect: a SIGHUP
disposition change, the /dev/tty open, or the TIOCNOTTY ioctl. -/
def hasDetachEv (tr : List Ev) : Bool :=
  tr.any (fun ev =>
    match ev with
    | Ev.sigdisp _ => true
    | Ev.openTty => true
    | Ev.ioctlNotty => true
    | _ => false)

/-- Whether the trace contains a spawn of a child command. -/
def hasSpawn (tr : List Ev) : Bool :=
  tr.any (fun ev => match ev with | Ev.spawn _ => true | _ => false)

/-- Whether the trace contains an explicit close of the terminal descriptor. -/
def hasCloseTty (tr : List Ev) : Bool :=
  tr.any (fun ev => match ev with | Ev.closeTty => true | _ => false)

/-- Whether the trace contains the TIOCNOTTY ioctl. -/
def hasIoctl (tr : List Ev) : Bool :=
  tr.any (fun ev => match ev with | Ev.ioctlNotty => true | _ => false)

/-- Whether the trace contains the run of the tty child. -/
def hasTtyChild (tr : List Ev) : Bool :=
  tr.any (fun ev => match ev with | Ev.ttyChild _ => true | _ => false)

/-- Whether the trace contains a restore of SIGHUP to its default. -/
def hasSigDfl (tr : List Ev) : Bool :=
  tr.any (fun ev => match ev with | Ev.sigdisp Disp.dfl => true | _ => false)

/-- Temporal check of the detachment protocol, walking the trace while
tracking the current SIGHUP disposition and whether the terminal descriptor
is open: the open must happen under the ignore disposition, the ioctl must
happen under the ignore disposition with the descriptor open, and any spawn
must happen with the disposition restored to default. -/
def checkDetachTiming : Option Disp → Bool → List Ev → Bool
| _, _, [] => true
| _, o, Ev.sigdisp d2 :: tl => checkDetachTiming (some d2) o tl
| d, _, Ev.openTty :: tl => (d == some Disp.ign) && checkDetachTiming d true tl
| d, o, Ev.ioctlNotty :: tl =>
    (d == some Disp.ign) && o && checkDetachTiming d o tl
| d, _, Ev.closeTty :: tl => checkDetachTiming d false tl
| d, o, Ev.spawn _ :: tl => (d == some Disp.dfl) && checkDetachTiming d o tl
| d, o, _ :: tl => checkDetachTiming d o tl

/-- Check that every spawn in the trace happens while the terminal
descriptor is still open (it was opened and never closed before). -/
def checkSpawnFdOpen : Bool → List Ev → Bool
| _, [] => true
| _, Ev.openTty :: tl => checkSpawnFdOpen true tl
| _, Ev.closeTty :: tl => checkSpawnFdOpen false tl
| o, Ev.spawn _ :: tl => o && checkSpawnFdOpen o tl
| o, _ :: tl => checkSpawnFdOpen o tl

/-- Whether the trace records the semaphore creation with pshared false and
initial value zero. -/
def hasSemInitZeroPrivate (tr : List Ev) : Bool :=
  tr.any (fun ev => match ev with | Ev.semInit false 0 => true | _ => false)

/-- A run in which every system call succeeds, the tty child exits with
status 0, and the waited-for child exits with status 0. -/
def goodEnv : Env :=
  { sigIgnOk := true, openOk := true, ioctlOk := true, sigDflOk := true,
    ttyStatus := 0, ttyLine := "/dev/pts/3\n", childStatus := 0,
    semInitOk := true, semWaitRes := SemWaitRes.blocksForever }

/-- Like goodEnv but the open of /dev/tty fails. -/
def envOpenFail : Env := { goodEnv with openOk := false }

/-- Like goodEnv but the TIOCNOTTY ioctl fails. -/
def envIoctlFail : Env := { goodEnv with ioctlOk := false }

/-- Like goodEnv but sem_init fails. -/
def envSemInitFail : Env := { goodEnv with semInitOk := false }

/-- Like goodEnv but sem_wait returns an error. -/
def envSemWaitErr : Env := { goodEnv with semWaitRes := SemWaitRes.errReturn }

/-- Like goodEnv but sem_wait returns zero, the shape semaphore semantics
rules out for a never-posted zero-valued semaphore. -/
def envSemZero : Env := { goodEnv with semWaitRes := SemWaitRes.zeroReturn }

/-- Like goodEnv but the tty child is killed by signal 9, so the wait status
is not a normal exit. -/
def envTtyBad : Env := { goodEnv with ttyStatus := encodeSignaled 9 }

/-- Claim C2: run_given_command maps a normal exit with code N to N, a
termination by signal S to 128 + S, and any other wait-status shape to the
assertion abort; in particular exit code 7 gives 7 and signal 9 gives 137. -/
theorem claim_C2_status_mapping :
    (∀ n : Nat, n < 256 → run_given_command (encodeExited n) = some n) ∧
    (∀ s : Nat, 0 < s → s < 127 →
      run_given_command (encodeSignaled s) = some (128 + s)) ∧
    (∀ st : Nat, wifexited st = false → wifsignaled st = false →
      run_given_command st = none) ∧
    run_given_command (encodeExited 7) = some 7 ∧
    run_given_command (encodeSignaled 9) = some 137 := by
  refine ⟨?_, ?_, ?_, by decide, by decide⟩
  · intro n hn
    have h1 : encodeExited n % 128 = 0 := by unfold encodeExited; omega
    have h2 : (encodeExited n / 256) % 256 = n := by unfold encodeExited; omega
    simp [run_given_command, wifexited, wexitstatus, h1, h2]
  · intro s h0 h1
    have hs : encodeSignaled s = s := by unfold encodeSignaled; omega
    have hmod : s % 128 = s := by omega
    have hx : wifexited s = false := by
      simp [wifexited, hmod]; omega
    have hsig : wifsignaled s = true := by
      simp [wifsignaled, hmod]; omega
    have ht : wtermsig s = s := by unfold wtermsig; omega
    rw [hs]
    simp [run_given_command, hx, hsig, ht]
  · intro st hx hsig
    simp [run_given_command, hx, hsig]

/-- Witness for claim C2 at concrete statuses: exit 7, kill by signal 9,
and a stopped shape. -/
theorem claim_C2_status_mapping_witness :
    run_given_command (encodeExited 7) = some 7 ∧
    run_given_command (encodeSignaled 9) = some 137 ∧
    run_given_command (encodeStopped 19) = none :=
  ⟨claim_C2_status_mapping.1 7 (by decide),
   claim_C2_status_mapping.2.1 9 (by decide) (by decide),
   claim_C2_status_mapping.2.2.1 (encodeStopped 19) (by decide) (by decide)⟩

/-- Claim C3, counterexample: with -v absent the Terminal Reporter does not
produce zero bytes on stdout — the tty child it runs unconditionally writes
the terminal pathname line there. -/
theorem claim_C3_counterexample :
    stdoutOf (print_tty false goodEnv).1 = ["/dev/pts/3\n"] ∧
    stdoutOf (print_tty false goodEnv).1 ≠ [] := by
  refine ⟨rfl, by decide⟩

/-- Claim C3 as amended: when -v is absent the Reporter itself writes
nothing, but the delegated tty child still writes the one terminal
identifying line to the shared stdout; when -v is present stdout receives
the labeled header, the terminal identifying line, and the separator line,
in that order. -/
theorem claim_C3_amended (e : Env)
    (h1 : wifexited e.ttyStatus = true) (h2 : wexitstatus e.ttyStatus = 0) :
    stdoutOf (print_tty false e).1 = [e.ttyLine] ∧
    stdoutOf (print_tty true e).1 = [hdrLine, e.ttyLine, sepLine] := by
  constructor <;> simp [print_tty, stdoutOf, h1, h2]

/-- Witness for the amended claim C3 at the all-good run. -/
theorem claim_C3_amended_witness :
    stdoutOf (print_tty false goodEnv).1 = [goodEnv.ttyLine] ∧
    stdoutOf (print_tty true goodEnv).1 =
      [hdrLine, goodEnv.ttyLine, sepLine] :=
  claim_C3_amended goodEnv rfl rfl

/-- Every trace of print_tty contains the run of the tty child, whatever the
verbosity and whatever the tty wait status. -/
lemma hasTtyChild_print_tty (v : Bool) (e : Env) :
    hasTtyChild (print_tty v e).1 = true := by
  cases v <;> simp [print_tty, hasTtyChild] <;> split <;> simp

/-- The trace of the stages after argument processing always starts with the
trace of print_tty. -/
lemma mainAfterParse_trace (opts : options) (e : Env) :
    ∃ rest, (mainAfterParse opts e).1 = (print_tty opts.verbose e).1 ++ rest := by
  rcases hpt : print_tty opts.verbose e with ⟨tr2, r2⟩
  unfold mainAfterParse
  rw [hpt]
  cases r2 with
  | error r => exact ⟨[], by simp⟩
  | ok u =>
    rcases hrel : relinquish_controlling_tty e with ⟨tr3, r3⟩
    cases r3 with
    | error r => exact ⟨tr3, by simp⟩
    | ok u2 =>
      cases hc : opts.command with
      | some cmd =>
        cases hrc : run_given_command e.childStatus with
        | some n => exact ⟨tr3 ++ [Ev.spawn cmd], by simp⟩
        | none => exact ⟨tr3 ++ [Ev.spawn cmd], by simp⟩
      | none =>
        rcases hb : block_forever e with ⟨tr4, r4⟩
        cases r4 with
        | error r => exact ⟨tr3 ++ tr4, by simp⟩
        | ok u3 => exact ⟨tr3 ++ tr4, by simp⟩

/-- Claim C9: for every invocation that passes argument parsing, the tty
child runs regardless of the verbosity flag, its line reaches stdout even
without -v, and a tty wait status that is not a normal exit with code 0
aborts via the assertions in every verbosity mode. -/
theorem claim_C9_tty_unconditional
    (argv0 : String) (args : List String) (e : Env) (opts : options)
    (hp : process_args argv0 args = ([], Except.ok opts)) :
    hasTtyChild (noctty_main argv0 args e).1 = true ∧
    ((wifexited e.ttyStatus && (wexitstatus e.ttyStatus == 0)) = false →
      (noctty_main argv0 args e).2 = Res.assertAborted) ∧
    (∀ v : Bool, hasTtyChild (print_tty v e).1 = true) ∧
    stdoutOf (print_tty false e).1 = [e.ttyLine] := by
  refine ⟨?_, ?_, fun v => hasTtyChild_print_tty v e, ?_⟩
  · obtain ⟨rest, hr⟩ := mainAfterParse_trace opts e
    have h2 := hasTtyChild_print_tty opts.verbose e
    simp only [noctty_main, hp, List.nil_append]
    rw [hr]
    simp only [hasTtyChild, List.any_append] at h2 ⊢
    rw [h2]
    simp
  · intro hb
    simp [noctty_main, hp, mainAfterParse, print_tty, hb]
  · simp [print_tty]
    split <;> simp [stdoutOf]

/-- Witness for claim C9 at a run whose tty child is killed by signal 9. -/
theorem claim_C9_tty_unconditional_witness :
    hasTtyChild (noctty_main "noctty" [] envTtyBad).1 = true ∧
    (noctty_main "noctty" [] envTtyBad).2 = Res.assertAborted ∧
    hasTtyChild (print_tty false envTtyBad).1 = true ∧
    stdoutOf (print_tty false envTtyBad).1 = [envTtyBad.ttyLine] := by
  obtain ⟨a, b, c, d⟩ :=
    claim_C9_tty_unconditional "noctty" [] envTtyBad
      { command := none, verbose := false } rfl
  exact ⟨a, b (by decide), c false, d⟩

/-- Claim C1: the detachment protocol is strictly ordered — SIGHUP is set to
ignore before /dev/tty is opened, TIOCNOTTY is issued while the disposition
is still ignore and the descriptor is open, the success path restores the
default disposition afterwards, and any spawned command runs under the
default disposition, never under ignore. -/
theorem claim_C1_detach_protocol
    (argv0 : String) (args : List String) (e : Env) (opts : options)
    (cmd : String)
    (hp : process_args argv0 args = ([], Except.ok opts))
    (hcmd : opts.command = some cmd)
    (h1 : e.sigIgnOk = true) (h2 : e.openOk = true)
    (h3 : e.ioctlOk = true) (h4 : e.sigDflOk = true)
    (ht : wifexited e.ttyStatus = true) (ht2 : wexitstatus e.ttyStatus = 0) :
    relinquish_controlling_tty e =
      ([Ev.sigdisp Disp.ign, Ev.openTty, Ev.ioctlNotty, Ev.sigdisp Disp.dfl],
       Except.ok ()) ∧
    checkDetachTiming none false (noctty_main argv0 args e).1 = true ∧
    hasIoctl (noctty_main argv0 args e).1 = true ∧
    hasSpawn (noctty_main argv0 args e).1 = true := by
  obtain ⟨cmdo, verb⟩ := opts
  simp only [options.command] at hcmd
  subst hcmd
  refine ⟨by simp [relinquish_controlling_tty, h1, h2, h3, h4], ?_, ?_, ?_⟩ <;>
    (simp only [noctty_main, hp, List.nil_append]
     cases verb <;> cases hrc : run_given_command e.childStatus <;>
       simp [mainAfterParse, print_tty, relinquish_controlling_tty,
             ht, ht2, h1, h2, h3, h4, hrc, checkDetachTiming, hasIoctl,
             hasSpawn])

/-- Witness for claim C1 at the all-good run with the command "true". -/
theorem claim_C1_detach_protocol_witness :
    relinquish_controlling_tty goodEnv =
      ([Ev.sigdisp Disp.ign, Ev.openTty, Ev.ioctlNotty, Ev.sigdisp Disp.dfl],
       Except.ok ()) ∧
    checkDetachTiming none false (noctty_main "noctty" ["true"] goodEnv).1 = true ∧
    hasIoctl (noctty_main "noctty" ["true"] goodEnv).1 = true ∧
    hasSpawn (noctty_main "noctty" ["true"] goodEnv).1 = true :=
  claim_C1_detach_protocol "noctty" ["true"] goodEnv
    { command := some "true", verbose := false } "true"
    rfl rfl rfl rfl rfl rfl rfl rfl

/-- Claim C4: a failing open of /dev/tty, or a failing TIOCNOTTY on the
opened descriptor, reports the cause via perror and terminates immediately
with a failure status; nothing past the failing step runs — no ioctl and no
spawn after a failed open, and no spawn and no disposition restore after a
failed ioctl. -/
theorem claim_C4_fatal_errors
    (argv0 : String) (args : List String) (e : Env) (opts : options)
    (hp : process_args argv0 args = ([], Except.ok opts))
    (ht : wifexited e.ttyStatus = true) (ht2 : wexitstatus e.ttyStatus = 0)
    (h1 : e.sigIgnOk = true) :
    (e.openOk = false →
       (noctty_main argv0 args e).2 = Res.bailed "error opening /dev/tty" ∧
       Res.exitStatus (noctty_main argv0 args e).2 = some 1 ∧
       hasIoctl (noctty_main argv0 args e).1 = false ∧
       hasSpawn (noctty_main argv0 args e).1 = false) ∧
    (e.openOk = true → e.ioctlOk = false →
       (noctty_main argv0 args e).2 = Res.bailed "ioctl error" ∧
       Res.exitStatus (noctty_main argv0 args e).2 = some 1 ∧
       hasSpawn (noctty_main argv0 args e).1 = false ∧
       hasSigDfl (noctty_main argv0 args e).1 = false) := by
  obtain ⟨cmdo, verb⟩ := opts
  constructor
  · intro ho
    simp only [noctty_main, hp, List.nil_append]
    cases verb <;>
      simp [mainAfterParse, print_tty, relinquish_controlling_tty,
            ht, ht2, h1, ho, hasIoctl, hasSpawn, Res.exitStatus]
  · intro ho hi
    simp only [noctty_main, hp, List.nil_append]
    cases verb <;>
      simp [mainAfterParse, print_tty, relinquish_controlling_tty,
            ht, ht2, h1, ho, hi, hasSpawn, hasSigDfl, Res.exitStatus]

/-- Witness for claim C4 at a run with a failing open and at a run with a
failing ioctl. -/
theorem claim_C4_fatal_errors_witness :
    ((noctty_main "noctty" [] envOpenFail).2 =
       Res.bailed "error opening /dev/tty" ∧
     Res.exitStatus (noctty_main "noctty" [] envOpenFail).2 = some 1 ∧
     hasIoctl (noctty_main "noctty" [] envOpenFail).1 = false ∧
     hasSpawn (noctty_main "noctty" [] envOpenFail).1 = false) ∧
    ((noctty_main "noctty" [] envIoctlFail).2 = Res.bailed "ioctl error" ∧
     Res.exitStatus (noctty_main "noctty" [] envIoctlFail).2 = some 1 ∧
     hasSpawn (noctty_main "noctty" [] envIoctlFail).1 = false ∧
     hasSigDfl (noctty_main "noctty" [] envIoctlFail).1 = false) :=
  ⟨(claim_C4_fatal_errors "noctty" [] envOpenFail
      { command := none, verbose := false } rfl rfl rfl rfl).1 rfl,
   (claim_C4_fatal_errors "noctty" [] envIoctlFail
      { command := none, verbose := false } rfl rfl rfl rfl).2 rfl rfl⟩

/-- Claim C5: with no command supplied, main reaches block_forever, which
waits on a semaphore created process-private with value zero that nobody
posts; under semantics-respecting environments the program never exits on
its own (it blocks, or bails on a failing sem_init or sem_wait with a
failure status and no retry). -/
theorem claim_C5_block_forever
    (argv0 : String) (args : List String) (e : Env) (opts : options)
    (hp : process_args argv0 args = ([], Except.ok opts))
    (hcmd : opts.command = none)
    (ht : wifexited e.ttyStatus = true) (ht2 : wexitstatus e.ttyStatus = 0)
    (h1 : e.sigIgnOk = true) (h2 : e.openOk = true)
    (h3 : e.ioctlOk = true) (h4 : e.sigDflOk = true)
    (hsem : e.semConsistent) :
    (e.semInitOk = true → e.semWaitRes = SemWaitRes.blocksForever →
       (noctty_main argv0 args e).2 = Res.blocked ∧
       hasSemInitZeroPrivate (noctty_main argv0 args e).1 = true) ∧
    (∀ n : Nat, (noctty_main argv0 args e).2 ≠ Res.exited n) ∧
    (e.semInitOk = false →
       (noctty_main argv0 args e).2 = Res.bailed "sem_init error" ∧
       Res.exitStatus (noctty_main argv0 args e).2 = some 1) ∧
    (e.semInitOk = true → e.semWaitRes = SemWaitRes.errReturn →
       (noctty_main argv0 args e).2 = Res.bailed "sem_wait error" ∧
       Res.exitStatus (noctty_main argv0 args e).2 = some 1) := by
  obtain ⟨cmdo, verb⟩ := opts
  simp only [options.command] at hcmd
  subst hcmd
  obtain ⟨sIgn, oOk, iOk, sDfl, ttyS, ttyL, chS, semI, semW⟩ := e
  simp only [Env.semConsistent] at hsem
  simp only at h1 h2 h3 h4 ht ht2 hsem
  subst h1 h2 h3 h4
  simp only [noctty_main, hp, List.nil_append]
  cases verb <;> cases semI <;> cases semW <;>
    simp_all [mainAfterParse, print_tty, relinquish_controlling_tty,
              block_forever, hasSemInitZeroPrivate, Res.exitStatus]

/-- Witness for claim C5 at the blocking run, the failing sem_init run, and
the failing sem_wait run. -/
theorem claim_C5_block_forever_witness :
    (noctty_main "noctty" [] goodEnv).2 = Res.blocked ∧
    hasSemInitZeroPrivate (noctty_main "noctty" [] goodEnv).1 = true ∧
    (noctty_main "noctty" [] envSemInitFail).2 = Res.bailed "sem_init error" ∧
    (noctty_main "noctty" [] envSemWaitErr).2 = Res.bailed "sem_wait error" := by
  have ha := claim_C5_block_forever "noctty" [] goodEnv
    { command := none, verbose := false } rfl rfl rfl rfl rfl rfl rfl rfl
    (by unfold Env.semConsistent; decide)
  have hb := claim_C5_block_forever "noctty" [] envSemInitFail
    { command := none, verbose := false } rfl rfl rfl rfl rfl rfl rfl rfl
    (by unfold Env.semConsistent; decide)
  have hc := claim_C5_block_forever "noctty" [] envSemWaitErr
    { command := none, verbose := false } rfl rfl rfl rfl rfl rfl rfl rfl
    (by unfold Env.semConsistent; decide)
  exact ⟨(ha.1 rfl rfl).1, (ha.1 rfl rfl).2,
         (hb.2.2.1 rfl).1, (hc.2.2.2 rfl rfl).1⟩

/-- Claim C6: two or more positional arguments make the program print the
invalid-arguments message and the help text to stderr and exit with code 1,
with no detachment side effect, since argument validation runs first. -/
theorem claim_C6_invalid_args
    (argv0 : String) (args : List String) (e : Env) (v : Bool)
    (p1 p2 : String) (rest : List String)
    (hs : scanArgs false args = ScanRes.done v (p1 :: p2 :: rest)) :
    noctty_main argv0 args e =
      ([Ev.errStr "error: invalid arguments\n", Ev.errStr "\n",
        Ev.helpOut true argv0], Res.exited 1) ∧
    hasDetachEv (noctty_main argv0 args e).1 = false ∧
    stderrHasHelp (noctty_main argv0 args e).1 = true := by
  simp [noctty_main, process_args, hs, hasDetachEv, stderrHasHelp]

/-- Witness for claim C6 at the invocation noctty cmd1 cmd2. -/
theorem claim_C6_invalid_args_witness :
    noctty_main "noctty" ["cmd1", "cmd2"] goodEnv =
      ([Ev.errStr "error: invalid arguments\n", Ev.errStr "\n",
        Ev.helpOut true "noctty"], Res.exited 1) ∧
    hasDetachEv (noctty_main "noctty" ["cmd1", "cmd2"] goodEnv).1 = false ∧
    stderrHasHelp (noctty_main "noctty" ["cmd1", "cmd2"] goodEnv).1 = true :=
  claim_C6_invalid_args "noctty" ["cmd1", "cmd2"] goodEnv false
    "cmd1" "cmd2" [] rfl

/-- Claim C7, counterexample: on the unrecognized flag -x the program exits
with code 1 but prints no usage/help text anywhere — the only stderr output
is the diagnostic getopt itself emits. -/
theorem claim_C7_counterexample :
    noctty_main "noctty" ["-x"] goodEnv =
      ([Ev.getoptDiag "noctty" 'x'], Res.exited 1) ∧
    stderrHasHelp (noctty_main "noctty" ["-x"] goodEnv).1 = false := by
  exact ⟨rfl, rfl⟩

/-- Claim C7 as amended: an unrecognized flag makes the program exit with
code 1; getopt prints its own invalid-option diagnostic to stderr, and the
program prints no usage/help text. -/
theorem claim_C7_amended
    (argv0 : String) (args : List String) (c : Char) (e : Env)
    (hs : scanArgs false args = ScanRes.badFlag c) :
    noctty_main argv0 args e = ([Ev.getoptDiag argv0 c], Res.exited 1) ∧
    stderrHasHelp (noctty_main argv0 args e).1 = false := by
  simp [noctty_main, process_args, hs, stderrHasHelp]

/-- Witness for the amended claim C7 at the invocation noctty -x. -/
theorem claim_C7_amended_witness :
    noctty_main "noctty" ["-x"] envOpenFail =
      ([Ev.getoptDiag "noctty" 'x'], Res.exited 1) ∧
    stderrHasHelp (noctty_main "noctty" ["-x"] envOpenFail).1 = false :=
  claim_C7_amended "noctty" ["-x"] 'x' envOpenFail rfl

/-- Claim C8, counterexample: in an all-good run with a command, a child is
spawned while the terminal descriptor is still open, and no close of that
descriptor ever appears in the trace — the descriptor is not closed before
the child command is spawned. -/
theorem claim_C8_counterexample :
    hasSpawn (noctty_main "noctty" ["true"] goodEnv).1 = true ∧
    hasCloseTty (noctty_main "noctty" ["true"] goodEnv).1 = false ∧
    checkSpawnFdOpen false (noctty_main "noctty" ["true"] goodEnv).1 = true := by
  exact ⟨rfl, rfl, rfl⟩

/-- Claim C8 as amended: the terminal descriptor is never explicitly closed;
it remains open across the spawn of the child command (so it is leaked into
the child) and is closed only implicitly at process exit. -/
theorem claim_C8_amended
    (argv0 : String) (args : List String) (e : Env) (opts : options)
    (cmd : String)
    (hp : process_args argv0 args = ([], Except.ok opts))
    (hcmd : opts.command = some cmd)
    (h1 : e.sigIgnOk = true) (h2 : e.openOk = true)
    (h3 : e.ioctlOk = true) (h4 : e.sigDflOk = true)
    (ht : wifexited e.ttyStatus = true) (ht2 : wexitstatus e.ttyStatus = 0) :
    hasCloseTty (noctty_main argv0 args e).1 = false ∧
    hasSpawn (noctty_main argv0 args e).1 = true ∧
    checkSpawnFdOpen false (noctty_main argv0 args e).1 = true := by
  obtain ⟨cmdo, verb⟩ := opts
  simp only [options.command] at hcmd
  subst hcmd
  refine ⟨?_, ?_, ?_⟩ <;>
    (simp only [noctty_main, hp, List.nil_append]
     cases verb <;> cases hrc : run_given_command e.childStatus <;>
       simp [mainAfterParse, print_tty, relinquish_controlling_tty,
             ht, ht2, h1, h2, h3, h4, hrc, hasCloseTty, hasSpawn,
             checkSpawnFdOpen])

/-- Witness for the amended claim C8 at the all-good run with the command
"true". -/
theorem claim_C8_amended_witness :
    hasCloseTty (noctty_main "noctty" ["true"] goodEnv).1 = false ∧
    hasSpawn (noctty_main "noctty" ["true"] goodEnv).1 = true ∧
    checkSpawnFdOpen false (noctty_main "noctty" ["true"] goodEnv).1 = true :=
  claim_C8_amended "noctty" ["true"] goodEnv
    { command := some "true", verbose := false } "true"
    rfl rfl rfl rfl rfl rfl rfl rfl

/-- Claim C10: when no command is given and the indefinite-block wait
returns without error (the shape semaphore semantics rules out), main falls
off its end without an explicit return, which in C returns 0 from main, so
the process exits with status 0. -/
theorem claim_C10_fallthrough_exit0
    (argv0 : String) (args : List String) (e : Env) (opts : options)
    (hp : process_args argv0 args = ([], Except.ok opts))
    (hcmd : opts.command = none)
    (ht : wifexited e.ttyStatus = true) (ht2 : wexitstatus e.ttyStatus = 0)
    (h1 : e.sigIgnOk = true) (h2 : e.openOk = true)
    (h3 : e.ioctlOk = true) (h4 : e.sigDflOk = true)
    (hi : e.semInitOk = true)
    (hw : e.semWaitRes = SemWaitRes.zeroReturn) :
    (noctty_main argv0 args e).2 = Res.exited 0 := by
  obtain ⟨cmdo, verb⟩ := opts
  simp only [options.command] at hcmd
  subst hcmd
  simp only [noctty_main, hp, List.nil_append]
  cases verb <;>
    simp [mainAfterParse, print_tty, relinquish_controlling_tty,
          block_forever, ht, ht2, h1, h2, h3, h4, hi, hw]

/-- Witness for claim C10 at the run whose sem_wait returns zero. -/
theorem claim_C10_fallthrough_exit0_witness :
    (noctty_main "noctty" [] envSemZero).2 = Res.exited 0 :=
  claim_C10_fallthrough_exit0 "noctty" [] envSemZero
    { command := none, verbose := false }
    rfl rfl rfl rfl rfl rfl rfl rfl rfl rfl

end Noctty
